import Mathlib

/-!
Shallow embedding of the Async-Task-Processor-API repository
(src/app/db.py, src/app/tasks.py, src/app/main.py).

The task store is modelled as an association list from task id to the row
of the `tasks` table.  SQL `UPDATE ... WHERE task_id = id` is modelled as
a rewrite of every row whose key matches; `INSERT` with a primary-key
column fails (returns `none`) when the key is already present.
Wall-clock times (`datetime.utcnow()`) are passed in explicitly as `Nat`
parameters.  Python's builtin `hash` and `str` on the payload dict are
implementation-defined, so they enter as a function parameter
`pyHashStr`; Python's `%` on `int` with a positive modulus agrees with
`Int.emod`, which is Lean's `%` on `Int`.
-/

/-! ## The task store (src/app/db.py) -/

/-- One row of the `tasks` table (db.py, `tasks_table`): columns
`task_id` (the key of the store), `status`, `result`, `error_message`,
`created_at`, `completed_at`.  The source comment documents the status
values as "pending, completed, failed"; there is no `attempt_count`
column and no `in_progress` value anywhere in db.py. -/
structure TaskRecord where
  status : String
  result : Option Int
  error_message : Option String
  created_at : Nat
  completed_at : Option Nat
deriving Repr, DecidableEq

/-- The tasks table: rows keyed by `task_id`. -/
abbrev Store := List (String × TaskRecord)

/-- `SELECT ... WHERE task_id = tid` followed by `fetchone()`:
the first row whose key matches, if any. -/
def dbLookup : Store → String → Option TaskRecord
  | [], _ => none
  | (k, v) :: rest, tid => if k = tid then some v else dbLookup rest tid

/-- `UPDATE tasks SET ... WHERE task_id = tid`: rewrite every row whose
key is `tid` with `f`; rows with other keys are untouched, and a `tid`
matching no row makes the statement a no-op. -/
def sqlUpdateWhere : Store → String → (TaskRecord → TaskRecord) → Store
  | [], _, _ => []
  | (k, v) :: rest, tid, f =>
    (if k = tid then (k, f v) else (k, v)) :: sqlUpdateWhere rest tid f

/-- db.py `create_task`: INSERT a fresh row with status "pending" and
`created_at = datetime.utcnow()`.  `task_id` is the primary key, so the
INSERT fails (modelled as `none`) when a row with that id already exists. -/
def create_task (store : Store) (task_id : String) (now : Nat) : Option Store :=
  if (dbLookup store task_id).isSome then none
  else some ((task_id,
    { status := "pending", result := none, error_message := none,
      created_at := now, completed_at := none }) :: store)

/-- db.py `save_result`: UPDATE the row to `result = result`,
`status = "completed"`, `completed_at = utcnow()`.  No condition on the
current status, and `error_message` is not touched. -/
def save_result (store : Store) (task_id : String) (result : Int) (now : Nat) : Store :=
  sqlUpdateWhere store task_id fun rec =>
    { rec with result := some result, status := "completed", completed_at := some now }

/-- db.py `mark_task_failed`: UPDATE the row to `status = "failed"`,
`error_message = error_message`, `completed_at = utcnow()`.  No condition
on the current status, and `result` is not touched. -/
def mark_task_failed (store : Store) (task_id : String) (error_message : String) (now : Nat) : Store :=
  sqlUpdateWhere store task_id fun rec =>
    { rec with status := "failed", error_message := some error_message,
               completed_at := some now }

/-- db.py `get_task`: SELECT the row by id, `none` when absent. -/
def get_task (store : Store) (task_id : String) : Option TaskRecord :=
  dbLookup store task_id

/-! ## The worker task (src/app/tasks.py, `heavy_computation_task`) -/

/-- An opaque task payload: the optional JSON dict sent with the request,
seen as a key-value map (`data: Optional[dict] = None`). -/
abbrev PyDict := List (String × String)

/-- Python truthiness of the payload (`if data:`): `None` and the empty
dict are falsy, a non-empty dict is truthy. -/
def dataTruthy : Option PyDict → Bool
  | none => false
  | some d => !d.isEmpty

/-- Python's builtin `sum` over a list of naturals. -/
def pySum (l : List Nat) : Nat := l.foldl (· + ·) 0

/-- The result value computed in the try-block of `heavy_computation_task`:
`result = sum(range(1000000))`, then `result += hash(str(data)) % 1000`
when `data` is truthy.  `pyHashStr d` stands for Python's `hash(str(d))`,
an implementation-defined integer; Python's `%` with positive modulus is
`Int.emod`, Lean's `%` on `Int`. -/
def heavy_result (pyHashStr : PyDict → Int) (data : Option PyDict) : Int :=
  let result : Int := (pySum (List.range 1000000) : Nat)
  if dataTruthy data then
    match data with
    | some d => result + pyHashStr d % 1000
    | none => result
  else result

/-- The Celery task state written by `self.update_state(state='PROGRESS',
meta=...)`. -/
structure CeleryTaskState where
  state : String
  progress_meta : Option Int
deriving Repr, DecidableEq

/-- `self.update_state(state='PROGRESS', meta={'progress': p})` inside the
computation loop writes only to the Celery result backend; the `tasks`
table (the Store) receives no write, so it is returned unchanged. -/
def update_state (store : Store) (progress : Int) : Store × CeleryTaskState :=
  (store, { state := "PROGRESS", progress_meta := some progress })

/-- Successful run of the try-block: compute `heavy_result` and persist it
via `save_result` (status becomes "completed"). -/
def heavy_computation_success (pyHashStr : PyDict → Int) (store : Store)
    (task_id : String) (data : Option PyDict) (now : Nat) : Store × Int :=
  let result := heavy_result pyHashStr data
  (save_result store task_id result now, result)

/-- The retry arguments of `self.retry(exc=exc, countdown=60, max_retries=3)`
in the except-block. -/
structure RetryPolicy where
  countdown : Nat
  max_retries : Nat
deriving Repr, DecidableEq

/-- The concrete policy passed by `heavy_computation_task`. -/
def heavy_task_retry : RetryPolicy := { countdown := 60, max_retries := 3 }

/-- What `self.retry` does with the message: redeliver it after the
countdown while prior retries are below `max_retries`, otherwise stop
retrying (MaxRetriesExceededError propagates). -/
inductive RetryOutcome where
  | requeued (countdown : Nat)
  | exhausted
deriving Repr, DecidableEq

/-- The except-block of `heavy_computation_task`: on any exception it
first calls `mark_task_failed(task_id, str(exc))` — unconditionally, on
every attempt — and then raises `self.retry(...)`, which requeues the
message iff retries remain. `prior_retries` is `self.request.retries`. -/
def heavy_computation_failure (store : Store) (task_id : String)
    (error_message : String) (now : Nat) (prior_retries : Nat) : Store × RetryOutcome :=
  (mark_task_failed store task_id error_message now,
   if prior_retries < heavy_task_retry.max_retries
   then RetryOutcome.requeued heavy_task_retry.countdown
   else RetryOutcome.exhausted)

/-! ## The API layer (src/app/main.py) -/

/-- Response model of `POST /process`. -/
structure TaskResponse where
  task_id : String
  status : String
  message : String
deriving Repr, DecidableEq

/-- Response model of `GET /results/{task_id}`.  `created_at` and
`completed_at` are serialised timestamps (`isoformat`), modelled by the
timestamps themselves. -/
structure TaskStatusResponse where
  task_id : String
  status : String
  result : Option Int
  error_message : Option String
  created_at : Option Nat
  completed_at : Option Nat
deriving Repr, DecidableEq

/-- HTTP outcome of an endpoint: a 200 body or an HTTPException. -/
inductive HttpResult where
  | ok (code : Nat) (body : TaskStatusResponse)
  | httpError (code : Nat) (detail : String)
deriving Repr, DecidableEq

/-- main.py `process_task` (`POST /process`): allocate a fresh uuid
(taken here as the parameter `fresh_id`), `create_task` it, enqueue the
work with `.delay(...)` (fire-and-forget: no store write), and respond
with status "pending".  `none` models the IntegrityError raised if the
uuid already existed. -/
def process_task (store : Store) (fresh_id : String) (now : Nat) :
    Option (Store × TaskResponse) :=
  match create_task store fresh_id now with
  | none => none
  | some store' =>
    some (store', { task_id := fresh_id, status := "pending",
                    message := "Task queued for processing" })

/-- main.py `get_task_status` (`GET /results/{task_id}`): 404 with detail
"Task not found" when `get_task` finds nothing, otherwise a 200 body
copying the stored row. -/
def get_task_status (store : Store) (task_id : String) : HttpResult :=
  match get_task store task_id with
  | none => HttpResult.httpError 404 "Task not found"
  | some t =>
    HttpResult.ok 200
      { task_id := task_id, status := t.status, result := t.result,
        error_message := t.error_message, created_at := some t.created_at,
        completed_at := t.completed_at }

/-! ## Reachable stores and record invariants -/

/-- Stores reachable from the empty table by the write operations of
db.py (`create_task`, `save_result`, `mark_task_failed`), in any order
and with any arguments. -/
inductive Reachable : Store → Prop where
  | empty : Reachable []
  | create (s : Store) (tid : String) (now : Nat) (s' : Store) :
      Reachable s → create_task s tid now = some s' → Reachable s'
  | save (s : Store) (tid : String) (r : Int) (now : Nat) :
      Reachable s → Reachable (save_result s tid r now)
  | fail (s : Store) (tid : String) (e : String) (now : Nat) :
      Reachable s → Reachable (mark_task_failed s tid e now)

/-- Row-level invariant maintained by every db.py write. -/
def RecordOK (rec : TaskRecord) : Prop :=
  (rec.status = "pending" ∨ rec.status = "completed" ∨ rec.status = "failed") ∧
  (rec.completed_at.isSome ↔ (rec.status = "completed" ∨ rec.status = "failed")) ∧
  (rec.status = "pending" → rec.result = none ∧ rec.error_message = none) ∧
  (rec.status = "completed" → rec.result.isSome) ∧
  (rec.status = "failed" → rec.error_message.isSome)

instance (rec : TaskRecord) : Decidable (RecordOK rec) := by
  unfold RecordOK
  infer_instance

/-- The row `create_task` inserts at time 0: used as concrete test data. -/
def pendingRec0 : TaskRecord :=
  { status := "pending", result := none, error_message := none,
    created_at := 0, completed_at := none }

/-! ## Lemmas about the store operations -/

theorem sqlUpdateWhere_cons_hit (k : String) (v : TaskRecord) (rest : Store)
    (f : TaskRecord → TaskRecord) :
    sqlUpdateWhere ((k, v) :: rest) k f = (k, f v) :: sqlUpdateWhere rest k f := by
  rw [sqlUpdateWhere, if_pos rfl]

theorem sqlUpdateWhere_cons_miss (k tid : String) (v : TaskRecord) (rest : Store)
    (f : TaskRecord → TaskRecord) (h : ¬ k = tid) :
    sqlUpdateWhere ((k, v) :: rest) tid f = (k, v) :: sqlUpdateWhere rest tid f := by
  rw [sqlUpdateWhere, if_neg h]

theorem dbLookup_cons_hit (k : String) (v : TaskRecord) (rest : Store) :
    dbLookup ((k, v) :: rest) k = some v := by
  rw [dbLookup, if_pos rfl]

theorem dbLookup_cons_miss (k tid : String) (v : TaskRecord) (rest : Store)
    (h : ¬ k = tid) :
    dbLookup ((k, v) :: rest) tid = dbLookup rest tid := by
  rw [dbLookup, if_neg h]

theorem dbLookup_sqlUpdateWhere (s : Store) (tid tid' : String) (f : TaskRecord → TaskRecord) :
    dbLookup (sqlUpdateWhere s tid f) tid' =
      if tid' = tid then (dbLookup s tid').map f else dbLookup s tid' := by
  induction s with
  | nil => by_cases h : tid' = tid <;> simp [sqlUpdateWhere, dbLookup, h]
  | cons p rest ih =>
    obtain ⟨k, v⟩ := p
    by_cases hk : k = tid
    · subst hk
      rw [sqlUpdateWhere_cons_hit]
      by_cases h' : tid' = k
      · subst h'
        rw [dbLookup_cons_hit, dbLookup_cons_hit, if_pos rfl]
        rfl
      · have h'' : ¬ k = tid' := fun h => h' h.symm
        rw [dbLookup_cons_miss _ _ _ _ h'', dbLookup_cons_miss _ _ _ _ h'', ih, if_neg h']
    · rw [sqlUpdateWhere_cons_miss _ _ _ _ _ hk]
      by_cases h' : tid' = k
      · subst h'
        rw [dbLookup_cons_hit, dbLookup_cons_hit, if_neg (fun h => hk h)]
      · have h'' : ¬ k = tid' := fun h => h' h.symm
        rw [dbLookup_cons_miss _ _ _ _ h'', dbLookup_cons_miss _ _ _ _ h'', ih]

theorem sqlUpdateWhere_of_lookup_none (s : Store) (tid : String)
    (f : TaskRecord → TaskRecord) (h : dbLookup s tid = none) :
    sqlUpdateWhere s tid f = s := by
  induction s with
  | nil => rfl
  | cons p rest ih =>
    obtain ⟨k, v⟩ := p
    by_cases hk : k = tid
    · subst hk
      rw [dbLookup_cons_hit] at h
      exact absurd h (by simp)
    · rw [dbLookup_cons_miss _ _ _ _ hk] at h
      rw [sqlUpdateWhere_cons_miss _ _ _ _ _ hk, ih h]

theorem dbLookup_mem (s : Store) (tid : String) (rec : TaskRecord)
    (h : dbLookup s tid = some rec) : (tid, rec) ∈ s := by
  induction s with
  | nil => simp [dbLookup] at h
  | cons p rest ih =>
    obtain ⟨k, v⟩ := p
    by_cases hk : k = tid
    · subst hk
      rw [dbLookup_cons_hit] at h
      rw [(Option.some_inj.mp h)]
      exact List.mem_cons_self _ _
    · rw [dbLookup_cons_miss _ _ _ _ hk] at h
      exact List.mem_cons_of_mem _ (ih h)

theorem get_task_save_result (s : Store) (tid : String) (rec : TaskRecord)
    (r : Int) (now : Nat) (h : get_task s tid = some rec) :
    get_task (save_result s tid r now) tid =
      some { rec with result := some r, status := "completed",
                      completed_at := some now } := by
  rw [get_task, save_result, dbLookup_sqlUpdateWhere, if_pos rfl]
  rw [get_task] at h
  rw [h]
  rfl

theorem get_task_mark_failed (s : Store) (tid : String) (rec : TaskRecord)
    (e : String) (now : Nat) (h : get_task s tid = some rec) :
    get_task (mark_task_failed s tid e now) tid =
      some { rec with status := "failed", error_message := some e,
                      completed_at := some now } := by
  rw [get_task, mark_task_failed, dbLookup_sqlUpdateWhere, if_pos rfl]
  rw [get_task] at h
  rw [h]
  rfl

/-! ## Lemmas about reachable stores -/

theorem recordOK_save (rec : TaskRecord) (r : Int) (now : Nat) :
    RecordOK { rec with result := some r, status := "completed",
                        completed_at := some now } := by
  refine ⟨Or.inr (Or.inl rfl), ?_, ?_, ?_, ?_⟩ <;> simp

theorem recordOK_fail (rec : TaskRecord) (e : String) (now : Nat) :
    RecordOK { rec with status := "failed", error_message := some e,
                        completed_at := some now } := by
  refine ⟨Or.inr (Or.inr rfl), ?_, ?_, ?_, ?_⟩ <;> simp

theorem mem_sqlUpdateWhere (s : Store) (tid : String) (f : TaskRecord → TaskRecord)
    (p : String × TaskRecord) (hp : p ∈ sqlUpdateWhere s tid f) :
    (∃ q ∈ s, p = q) ∨ (∃ q ∈ s, p = (q.1, f q.2)) := by
  induction s with
  | nil => simp [sqlUpdateWhere] at hp
  | cons q rest ih =>
    obtain ⟨k, v⟩ := q
    by_cases hk : k = tid
    · subst hk
      rw [sqlUpdateWhere_cons_hit] at hp
      rcases List.mem_cons.mp hp with h | h
      · exact Or.inr ⟨(k, v), List.mem_cons_self _ _, h⟩
      · rcases ih h with ⟨q, hq, he⟩ | ⟨q, hq, he⟩
        · exact Or.inl ⟨q, List.mem_cons_of_mem _ hq, he⟩
        · exact Or.inr ⟨q, List.mem_cons_of_mem _ hq, he⟩
    · rw [sqlUpdateWhere_cons_miss _ _ _ _ _ hk] at hp
      rcases List.mem_cons.mp hp with h | h
      · exact Or.inl ⟨(k, v), List.mem_cons_self _ _, h⟩
      · rcases ih h with ⟨q, hq, he⟩ | ⟨q, hq, he⟩
        · exact Or.inl ⟨q, List.mem_cons_of_mem _ hq, he⟩
        · exact Or.inr ⟨q, List.mem_cons_of_mem _ hq, he⟩

theorem reachable_recordOK (s : Store) (h : Reachable s) :
    ∀ p ∈ s, RecordOK p.2 := by
  induction h with
  | empty => intro p hp; simp at hp
  | create s tid now s' _ hc ih =>
    intro p hp
    rw [create_task] at hc
    by_cases hdup : (dbLookup s tid).isSome
    · rw [if_pos hdup] at hc; cases hc
    · rw [if_neg hdup] at hc
      rcases List.mem_cons.mp ((Option.some_inj.mp hc) ▸ hp) with hhead | htail
      · subst hhead
        exact ⟨Or.inl rfl, by simp, by simp, by simp, by simp⟩
      · exact ih p htail
  | save s tid r now _ ih =>
    intro p hp
    rcases mem_sqlUpdateWhere s tid _ p hp with ⟨q, hq, he⟩ | ⟨q, hq, he⟩
    · exact he ▸ ih q hq
    · exact he ▸ recordOK_save q.2 r now
  | fail s tid e now _ ih =>
    intro p hp
    rcases mem_sqlUpdateWhere s tid _ p hp with ⟨q, hq, he⟩ | ⟨q, hq, he⟩
    · exact he ▸ ih q hq
    · exact he ▸ recordOK_fail q.2 e now

theorem reachable_get_task_ok (s : Store) (h : Reachable s) (tid : String)
    (rec : TaskRecord) (hg : get_task s tid = some rec) : RecordOK rec :=
  reachable_recordOK s h (tid, rec) (dbLookup_mem s tid rec hg)

/-! ## The value of the placeholder computation -/

theorem pySum_range_succ (n : Nat) :
    pySum (List.range (n + 1)) = pySum (List.range n) + n := by
  simp [pySum, List.range_succ, List.foldl_append]

theorem two_mul_pySum_range (n : Nat) :
    2 * pySum (List.range n) = n * (n - 1) := by
  induction n with
  | zero => rfl
  | succ m ih =>
    rw [pySum_range_succ, Nat.mul_add, ih]
    cases m with
    | zero => rfl
    | succ k =>
      simp only [Nat.succ_sub_one]
      ring

theorem pySum_range_eq (n : Nat) : pySum (List.range n) = n * (n - 1) / 2 := by
  have h := two_mul_pySum_range n
  omega

theorem pySum_range_million : pySum (List.range 1000000) = 499999500000 := by
  rw [pySum_range_eq]

theorem heavy_result_of_not_truthy (pyHashStr : PyDict → Int) (data : Option PyDict)
    (h : dataTruthy data = false) :
    heavy_result pyHashStr data = 499999500000 := by
  simp only [heavy_result, h, Bool.false_eq_true, if_false]
  rw [pySum_range_million]
  rfl

theorem heavy_result_of_truthy (pyHashStr : PyDict → Int) (d : PyDict)
    (h : dataTruthy (some d) = true) :
    heavy_result pyHashStr (some d) = 499999500000 + pyHashStr d % 1000 := by
  simp only [heavy_result, h, if_true]
  rw [pySum_range_million]
  rfl

/-! ## Claim C1 — terminal writes are not idempotent -/

/-- Claim C1, counterexample: a record already terminal (completed, result
42, completed_at 5) is rewritten by a subsequent `mark_task_failed`: the
stored status, error and completed_at all change, so the call is not a
no-op and the first terminal outcome does not persist. -/
theorem c1_counterexample :
    get_task (mark_task_failed
        [("t", { status := "completed", result := some 42, error_message := none,
                 created_at := 0, completed_at := some 5 })] "t" "boom" 9) "t" =
      some { status := "failed", result := some 42, error_message := some "boom",
             created_at := 0, completed_at := some 9 } ∧
    get_task (mark_task_failed
        [("t", { status := "completed", result := some 42, error_message := none,
                 created_at := 0, completed_at := some 5 })] "t" "boom" 9) "t" ≠
      some { status := "completed", result := some 42, error_message := none,
             created_at := 0, completed_at := some 5 } := by
  decide

/-- Claim C1 (amended): `save_result` and `mark_task_failed` never test the
current status.  On any existing record — terminal or not — `save_result`
overwrites status, result and completed_at, and `mark_task_failed`
overwrites status, error_message and completed_at, so the LAST terminal
outcome written is the one that persists (last-writer-wins). -/
theorem c1_terminal_writes_overwrite (s : Store) (tid : String) (rec : TaskRecord)
    (r : Int) (e : String) (now : Nat) (h : get_task s tid = some rec) :
    get_task (save_result s tid r now) tid =
      some { rec with result := some r, status := "completed",
                      completed_at := some now } ∧
    get_task (mark_task_failed s tid e now) tid =
      some { rec with status := "failed", error_message := some e,
                      completed_at := some now } :=
  ⟨get_task_save_result s tid rec r now h, get_task_mark_failed s tid rec e now h⟩

/-- Claim C1 (amended), witness at a concrete completed record. -/
theorem c1_terminal_writes_overwrite_witness :
    get_task (save_result
        [("t", { status := "completed", result := some 42, error_message := none,
                 created_at := 0, completed_at := some 5 })] "t" 7 9) "t" =
      some { status := "completed", result := some 7, error_message := none,
             created_at := 0, completed_at := some 9 } ∧
    get_task (mark_task_failed
        [("t", { status := "completed", result := some 42, error_message := none,
                 created_at := 0, completed_at := some 5 })] "t" "late" 9) "t" =
      some { status := "failed", result := some 42, error_message := some "late",
             created_at := 0, completed_at := some 9 } :=
  c1_terminal_writes_overwrite
    [("t", { status := "completed", result := some 42, error_message := none,
             created_at := 0, completed_at := some 5 })]
    "t"
    { status := "completed", result := some 42, error_message := none,
      created_at := 0, completed_at := some 5 }
    7 "late" 9 (by decide)

/-! ## Claim C2 — a transient failure is immediately recorded as failed -/

/-- Claim C2 is violated by the code: on the very first execution error
(`prior_retries = 0`, so the retry budget of 3 is not exhausted and the
message is requeued with countdown 60), the except-block has already
called `mark_task_failed`, so a Query issued between the transient
failure and its retry observes status "failed" with the error recorded. -/
theorem c2_transient_failure_immediately_marks_failed :
    heavy_computation_failure [("t", pendingRec0)] "t" "transient error" 3 0 =
      ([("t", { status := "failed", result := none,
                error_message := some "transient error",
                created_at := 0, completed_at := some 3 })],
       RetryOutcome.requeued 60) ∧
    get_task_status (heavy_computation_failure [("t", pendingRec0)] "t"
        "transient error" 3 0).1 "t" =
      HttpResult.ok 200
        { task_id := "t", status := "failed", result := none,
          error_message := some "transient error", created_at := some 0,
          completed_at := some 3 } := by
  decide

/-! ## Claim C3 — completed_at: the iff holds, "written exactly once" does not -/

/-- Claim C3, counterexample: after the first terminal transition (a
failure at time 1 writes completed_at = 1), a second terminal write (a
successful retry at time 2) rewrites completed_at to 2, so completed_at
is not written exactly once and Query does not keep returning the value
set at the first terminal transition. -/
theorem c3_counterexample :
    (get_task (mark_task_failed [("t", pendingRec0)] "t" "e" 1) "t").map
        (fun rec => rec.completed_at) = some (some 1) ∧
    (get_task (save_result (mark_task_failed [("t", pendingRec0)] "t" "e" 1)
        "t" 7 2) "t").map (fun rec => rec.completed_at) = some (some 2) := by
  decide

/-- Claim C3 (amended): for every record of a store reachable by the db.py
operations, completed_at is non-null if and only if the status is
terminal ("completed" or "failed"); but completed_at is rewritten by
every terminal write on the id, so it records the time of the last
terminal write, not the first. -/
theorem c3_completed_at_iff_terminal (s : Store) (h : Reachable s) (tid : String)
    (rec : TaskRecord) (hg : get_task s tid = some rec) :
    rec.completed_at.isSome ↔ (rec.status = "completed" ∨ rec.status = "failed") :=
  (reachable_get_task_ok s h tid rec hg).2.1

/-- Claim C3 (amended), witness on the store reached by one `create_task`. -/
theorem c3_completed_at_iff_terminal_witness :
    pendingRec0.completed_at.isSome ↔
      (pendingRec0.status = "completed" ∨ pendingRec0.status = "failed") :=
  c3_completed_at_iff_terminal [("t", pendingRec0)]
    (Reachable.create [] "t" 0 [("t", pendingRec0)] Reachable.empty (by decide))
    "t" pendingRec0 (by decide)

/-! ## Claim C4 — result/error: "exactly one" fails, the weaker invariant holds -/

/-- Claim C4, counterexample: create, then fail at time 1, then complete
at time 2 (a retry that succeeds).  The final record is terminal
(status "completed") with BOTH result and error_message set, because
`save_result` does not clear error_message. -/
theorem c4_counterexample :
    get_task (save_result (mark_task_failed [("t", pendingRec0)] "t" "e" 1)
        "t" 7 2) "t" =
      some { status := "completed", result := some 7, error_message := some "e",
             created_at := 0, completed_at := some 2 } := by
  decide

/-- Claim C4 (amended): for every record of a reachable store, neither
result nor error_message is set while the status is "pending", and once
terminal the field matching the status is set (result when "completed",
error_message when "failed"); but the other field is never cleared, so
both can be set at once after a failure followed by a successful retry. -/
theorem c4_terminal_fields (s : Store) (h : Reachable s) (tid : String)
    (rec : TaskRecord) (hg : get_task s tid = some rec) :
    (rec.status = "pending" → rec.result = none ∧ rec.error_message = none) ∧
    (rec.status = "completed" → rec.result.isSome) ∧
    (rec.status = "failed" → rec.error_message.isSome) :=
  (reachable_get_task_ok s h tid rec hg).2.2

/-- Claim C4 (amended), witness on the store reached by create then fail:
the stored record is failed with error_message "boom". -/
theorem c4_terminal_fields_witness :
    (TaskRecord.status
          { status := "failed", result := none, error_message := some "boom",
            created_at := 0, completed_at := some 1 } = "pending" →
        TaskRecord.result
          { status := "failed", result := none, error_message := some "boom",
            created_at := 0, completed_at := some 1 } = none ∧
        TaskRecord.error_message
          { status := "failed", result := none, error_message := some "boom",
            created_at := 0, completed_at := some 1 } = none) ∧
    (TaskRecord.status
          { status := "failed", result := none, error_message := some "boom",
            created_at := 0, completed_at := some 1 } = "completed" →
        Option.isSome (TaskRecord.result
          { status := "failed", result := none, error_message := some "boom",
            created_at := 0, completed_at := some 1 })) ∧
    (TaskRecord.status
          { status := "failed", result := none, error_message := some "boom",
            created_at := 0, completed_at := some 1 } = "failed" →
        Option.isSome (TaskRecord.error_message
          { status := "failed", result := none, error_message := some "boom",
            created_at := 0, completed_at := some 1 })) :=
  c4_terminal_fields (mark_task_failed [("t", pendingRec0)] "t" "boom" 1)
    (Reachable.fail [("t", pendingRec0)] "t" "boom" 1
      (Reachable.create [] "t" 0 [("t", pendingRec0)] Reachable.empty (by decide)))
    "t"
    { status := "failed", result := none, error_message := some "boom",
      created_at := 0, completed_at := some 1 } (by decide)

/-! ## Claim C5 — claiming a task writes nothing to the store -/

/-- Claim C5, counterexample: with the task record created and the worker
executing (emitting a progress update at 50 percent), the store is
unchanged and the stored status is still "pending", not "in_progress":
claiming a task performs no store write, and the row (see `TaskRecord`)
has no attempt_count column to increment. -/
theorem c5_counterexample :
    (update_state [("t", pendingRec0)] 50).1 = [("t", pendingRec0)] ∧
    (update_state [("t", pendingRec0)] 50).2 =
      { state := "PROGRESS", progress_meta := some 50 } ∧
    get_task_status [("t", pendingRec0)] "t" =
      HttpResult.ok 200
        { task_id := "t", status := "pending", result := none,
          error_message := none, created_at := some 0, completed_at := none } ∧
    ¬ get_task_status [("t", pendingRec0)] "t" =
      HttpResult.ok 200
        { task_id := "t", status := "in_progress", result := none,
          error_message := none, created_at := some 0, completed_at := none } := by
  decide

/-- Claim C5 (amended): the worker's progress reporting
(`self.update_state`) leaves the store unchanged and only writes the
advisory Celery state "PROGRESS"; on every reachable store no record
ever has status "in_progress", so a Query during execution observes the
"pending" that `create_task` wrote. -/
theorem c5_worker_never_stores_in_progress (s : Store) (h : Reachable s) (p : Int) :
    (update_state s p).1 = s ∧ (update_state s p).2.state = "PROGRESS" ∧
    ∀ tid rec, get_task s tid = some rec → rec.status ≠ "in_progress" := by
  refine ⟨rfl, rfl, fun tid rec hg hin => ?_⟩
  rcases (reachable_get_task_ok s h tid rec hg).1 with h1 | h1 | h1 <;>
    (rw [hin] at h1; exact absurd h1 (by decide))

/-- Claim C5 (amended), witness on the store reached by one create. -/
theorem c5_worker_never_stores_in_progress_witness :
    (update_state [("t", pendingRec0)] 42).1 = [("t", pendingRec0)] ∧
    (update_state [("t", pendingRec0)] 42).2.state = "PROGRESS" ∧
    ∀ tid rec, get_task [("t", pendingRec0)] tid = some rec →
      rec.status ≠ "in_progress" :=
  c5_worker_never_stores_in_progress [("t", pendingRec0)]
    (Reachable.create [] "t" 0 [("t", pendingRec0)] Reachable.empty (by decide)) 42

/-! ## Claim C6 — Submit creates a pending record and responds pending -/

/-- Claim C6: for a fresh task id, `process_task` inserts a record with
status "pending" into the store before returning, responds with that
task_id, status "pending" and the queueing message, and an immediate
Query on the resulting store returns 200 with status "pending". -/
theorem c6_submit_then_query_pending (s : Store) (tid : String) (now : Nat)
    (h : get_task s tid = none) :
    ∃ s' : Store,
      process_task s tid now =
        some (s', { task_id := tid, status := "pending",
                    message := "Task queued for processing" }) ∧
      get_task s' tid =
        some { status := "pending", result := none, error_message := none,
               created_at := now, completed_at := none } ∧
      get_task_status s' tid =
        HttpResult.ok 200
          { task_id := tid, status := "pending", result := none,
            error_message := none, created_at := some now, completed_at := none } := by
  have h' : dbLookup s tid = none := h
  have hc : create_task s tid now =
      some ((tid, { status := "pending", result := none, error_message := none,
                    created_at := now, completed_at := none }) :: s) := by
    simp only [create_task, h']
    rfl
  refine ⟨(tid, { status := "pending", result := none, error_message := none,
                  created_at := now, completed_at := none }) :: s, ?_, ?_, ?_⟩
  · simp only [process_task, hc]
  · exact dbLookup_cons_hit _ _ _
  · simp only [get_task_status, get_task, dbLookup_cons_hit]

/-- Claim C6, witness on the empty store at time 7. -/
theorem c6_submit_then_query_pending_witness :
    ∃ s' : Store,
      process_task [] "t" 7 =
        some (s', { task_id := "t", status := "pending",
                    message := "Task queued for processing" }) ∧
      get_task s' "t" =
        some { status := "pending", result := none, error_message := none,
               created_at := 7, completed_at := none } ∧
      get_task_status s' "t" =
        HttpResult.ok 200
          { task_id := "t", status := "pending", result := none,
            error_message := none, created_at := some 7, completed_at := none } :=
  c6_submit_then_query_pending [] "t" 7 rfl

/-! ## Claim C7 — Query: 404 on unknown id, stored row otherwise -/

/-- Claim C7: `get_task_status` on a task id with no record answers a 404
with detail "Task not found"; on an id with a record it answers 200 with
the stored status, result, error_message and timestamps. -/
theorem c7_query_semantics (s : Store) (tid : String) :
    (get_task s tid = none →
      get_task_status s tid = HttpResult.httpError 404 "Task not found") ∧
    (∀ rec : TaskRecord, get_task s tid = some rec →
      get_task_status s tid =
        HttpResult.ok 200
          { task_id := tid, status := rec.status, result := rec.result,
            error_message := rec.error_message,
            created_at := some rec.created_at,
            completed_at := rec.completed_at }) := by
  constructor
  · intro h
    simp only [get_task_status, h]
  · intro rec h
    simp only [get_task_status, h]

/-- Claim C7, witness: a missing id and a present id on a one-row store. -/
theorem c7_query_semantics_witness :
    get_task_status [("t", pendingRec0)] "missing" =
      HttpResult.httpError 404 "Task not found" ∧
    get_task_status [("t", pendingRec0)] "t" =
      HttpResult.ok 200
        { task_id := "t", status := pendingRec0.status,
          result := pendingRec0.result,
          error_message := pendingRec0.error_message,
          created_at := some pendingRec0.created_at,
          completed_at := pendingRec0.completed_at } :=
  ⟨(c7_query_semantics [("t", pendingRec0)] "missing").1 (by decide),
   (c7_query_semantics [("t", pendingRec0)] "t").2 pendingRec0 (by decide)⟩

/-! ## Claim C8 — retry parameters right, failed-transition timing wrong -/

/-- Claim C8: the retry call does use a fixed countdown of 60 and a
maximum of 3 retries, and once the maximum is reached the message is not
redelivered; but the transition to "failed" does not wait for the
budget: already on a failure with retries remaining (prior_retries = 1,
outcome requeued with delay 60) the store records status "failed" with
the error message. -/
theorem c8_retry_policy :
    heavy_task_retry.countdown = 60 ∧ heavy_task_retry.max_retries = 3 ∧
    (heavy_computation_failure [("u", pendingRec0)] "u" "err" 4 1).2 =
      RetryOutcome.requeued 60 ∧
    (get_task (heavy_computation_failure [("u", pendingRec0)] "u" "err" 4 1).1 "u").map
        (fun rec => rec.status) = some "failed" ∧
    (heavy_computation_failure [("u", pendingRec0)] "u" "err" 4 3).2 =
      RetryOutcome.exhausted := by
  decide

/-! ## Claim C9 — the value of the stored result -/

/-- Claim C9: on a successful execution with absent or empty payload, the
stored result is sum(range(1000000)) = 499999500000 exactly; with a
non-empty payload the stored result is that base plus
hash(str(data)) mod 1000, a value at least 0 and strictly below 1000. -/
theorem c9_result_value (pyHashStr : PyDict → Int) (s : Store) (tid : String)
    (data : Option PyDict) (now : Nat) (rec : TaskRecord)
    (h : get_task s tid = some rec) :
    (dataTruthy data = false →
      get_task (heavy_computation_success pyHashStr s tid data now).1 tid =
        some { rec with result := some 499999500000, status := "completed",
                        completed_at := some now }) ∧
    (dataTruthy data = true →
      ∃ off : Int, 0 ≤ off ∧ off < 1000 ∧
        get_task (heavy_computation_success pyHashStr s tid data now).1 tid =
          some { rec with result := some (499999500000 + off),
                          status := "completed",
                          completed_at := some now }) := by
  constructor
  · intro hf
    have hstep : (heavy_computation_success pyHashStr s tid data now).1 =
        save_result s tid (heavy_result pyHashStr data) now := rfl
    rw [hstep, heavy_result_of_not_truthy pyHashStr data hf]
    exact get_task_save_result s tid rec 499999500000 now h
  · intro ht
    cases data with
    | none => simp [dataTruthy] at ht
    | some d =>
      refine ⟨pyHashStr d % 1000, Int.emod_nonneg _ (by norm_num),
              Int.emod_lt_of_pos _ (by norm_num), ?_⟩
      have hstep : (heavy_computation_success pyHashStr s tid (some d) now).1 =
          save_result s tid (heavy_result pyHashStr (some d)) now := rfl
      rw [hstep, heavy_result_of_truthy pyHashStr d ht]
      exact get_task_save_result s tid rec (499999500000 + pyHashStr d % 1000) now h

/-- Claim C9, witness: one run with no payload and one with the payload
dict [("a", "b")] under the concrete hash function that returns -7. -/
theorem c9_result_value_witness :
    (get_task (heavy_computation_success (fun _ => -7) [("t", pendingRec0)]
          "t" none 4).1 "t" =
      some { pendingRec0 with result := some 499999500000,
                              status := "completed", completed_at := some 4 }) ∧
    (∃ off : Int, 0 ≤ off ∧ off < 1000 ∧
      get_task (heavy_computation_success (fun _ => -7) [("t", pendingRec0)]
            "t" (some [("a", "b")]) 4).1 "t" =
        some { pendingRec0 with result := some (499999500000 + off),
                                status := "completed", completed_at := some 4 }) :=
  ⟨(c9_result_value (fun _ => -7) [("t", pendingRec0)] "t" none 4 pendingRec0
      (by decide)).1 rfl,
   (c9_result_value (fun _ => -7) [("t", pendingRec0)] "t" (some [("a", "b")]) 4
      pendingRec0 (by decide)).2 rfl⟩

/-! ## Claim C10 — terminal writes on an unknown id are silent no-ops -/

/-- Claim C10: `save_result` and `mark_task_failed` on a task id with no
record match no row, so the UPDATE touches nothing: no error is raised,
no record is created, and the store — hence every existing record — is
unchanged. -/
theorem c10_unknown_id_write_noop (s : Store) (tid : String) (r : Int) (e : String)
    (now : Nat) (h : get_task s tid = none) :
    save_result s tid r now = s ∧ mark_task_failed s tid e now = s :=
  ⟨sqlUpdateWhere_of_lookup_none s tid _ h, sqlUpdateWhere_of_lookup_none s tid _ h⟩

/-- Claim C10, witness: updates aimed at the absent id "b" leave the
one-row store untouched. -/
theorem c10_unknown_id_write_noop_witness :
    save_result [("a", pendingRec0)] "b" 5 9 = [("a", pendingRec0)] ∧
    mark_task_failed [("a", pendingRec0)] "b" "e" 9 = [("a", pendingRec0)] :=
  c10_unknown_id_write_noop [("a", pendingRec0)] "b" 5 "e" 9 (by decide)
